import Mathlib

/-!
Formal model of `bulk_sender.py`, a WhatsApp bulk-message sender driven by
Selenium.  Pure helpers (template rendering, phone validation) are embedded
directly; the browser-facing control flow (`send_whatsapp_message`,
`main_bulk_send`) is embedded as explicit state passing over a browser-window
state, with an environment of booleans recording which fallible browser
operations raise an exception at each step.
-/

set_option autoImplicit false

namespace BulkSender

/-! ### Model of `string.Template.safe_substitute`

`render_message_template` calls `Template(template_str).safe_substitute(...)`
with the keys `name`, `phone`, `date`, `time`.  The default `Template` pattern
recognises, at each `$`:
* `$$` — an escape producing a literal `$`;
* `$ident` — a named placeholder, `ident` matching `[_a-zA-Z][_a-zA-Z0-9]*`;
* `${ident}` — a braced placeholder;
* anything else — an invalid pattern, which `safe_substitute` leaves as a
  literal `$` and resumes scanning right after it.
In safe mode a placeholder whose identifier is not a key of the substitution
map is kept verbatim.  Strings are modelled as `List Char` (ASCII fragment;
the `re.ASCII` identifier classes of `Template.idpattern` are exact here).
The `date`/`time` values produced by `time.strftime` at call time are passed
in as parameters `dt`/`tm`.
-/

def identStart (c : Char) : Bool := c.isAlpha || c == '_'

def identCont (c : Char) : Bool := identStart c || c.isDigit

/-- Longest prefix of identifier-continuation characters, and the rest. -/
def takeCont : List Char → List Char × List Char
  | [] => ([], [])
  | c :: r => if identCont c then let p := takeCont r; (c :: p.1, p.2) else ([], c :: r)

/-- Longest identifier prefix (`[_a-zA-Z][_a-zA-Z0-9]*`), and the rest;
`([], l)` if `l` does not start with an identifier. -/
def takeIdent : List Char → List Char × List Char
  | [] => ([], [])
  | c :: r => if identStart c then let p := takeCont r; (c :: p.1, p.2) else ([], c :: r)

/-- The substitution map `name=..., phone=..., date=..., time=...` of
`render_message_template`. -/
def lookupVar (nm ph dt tm : List Char) (key : List Char) : Option (List Char) :=
  if key = "name".toList then some nm
  else if key = "phone".toList then some ph
  else if key = "date".toList then some dt
  else if key = "time".toList then some tm
  else none

/-- One fuel unit is consumed per `$`-construct or literal character, so fuel
`s.length` always suffices; the `0` case is never reached from
`pySafeSubstitute`. -/
def substFuel (nm ph dt tm : List Char) : Nat → List Char → List Char
  | _, [] => []
  | 0, s => s
  | n + 1, c :: rest =>
    if c = '$' then
      match rest with
      | [] => ['$']
      | c2 :: r =>
        if c2 = '$' then '$' :: substFuel nm ph dt tm n r
        else if c2 = '{' then
          match takeIdent r with
          | ([], _) => '$' :: substFuel nm ph dt tm n (c2 :: r)
          | (k :: key, rtail) =>
            match rtail with
            | [] => '$' :: substFuel nm ph dt tm n (c2 :: r)
            | cb :: r2 =>
              if cb = '}' then
                match lookupVar nm ph dt tm (k :: key) with
                | some v => v ++ substFuel nm ph dt tm n r2
                | none => '$' :: '{' :: ((k :: key) ++ '}' :: substFuel nm ph dt tm n r2)
              else '$' :: substFuel nm ph dt tm n (c2 :: r)
        else if identStart c2 then
          match takeCont r with
          | (key, r2) =>
            match lookupVar nm ph dt tm (c2 :: key) with
            | some v => v ++ substFuel nm ph dt tm n r2
            | none => ('$' :: c2 :: key) ++ substFuel nm ph dt tm n r2
        else '$' :: substFuel nm ph dt tm n (c2 :: r)
    else c :: substFuel nm ph dt tm n rest

/-- Model of `Template(s).safe_substitute(name=nm, phone=ph, date=dt, time=tm)`. -/
def pySafeSubstitute (nm ph dt tm : List Char) (s : List Char) : List Char :=
  substFuel nm ph dt tm s.length s

/-- Model of `render_message_template(template_str, name, phone)`; `dt`/`tm` stand for
the `strftime` date and time strings computed at call time. -/
def render_message_template (template_str nm ph dt tm : List Char) : List Char :=
  pySafeSubstitute nm ph dt tm template_str

/-! ### Model of `load_contacts_from_csv` -/

/-- Python `str.strip()` whitespace (ASCII fragment). -/
def pyWhitespace (c : Char) : Bool :=
  c == ' ' || c == '\t' || c == '\n' || c == '\r' || c == '\x0b' || c == '\x0c'

/-- Python `str.strip()`: drop leading and trailing whitespace. -/
def pyStrip (s : List Char) : List Char :=
  ((s.dropWhile pyWhitespace).reverse.dropWhile pyWhitespace).reverse

/-- Python `str.isdigit()` (ASCII fragment): nonempty and all digits. -/
def pyIsDigitStr (s : List Char) : Bool := !s.isEmpty && s.all Char.isDigit

/-- The cleaning `raw.strip().replace("+", "").replace(" ", "")` applied to the raw
`Phone` cell. -/
def clean_phone (raw : List Char) : List Char :=
  ((pyStrip raw).filter (fun c => c ≠ '+')).filter (fun c => c ≠ ' ')

/-- One CSV row after `row.get(column, "")`: the raw `Phone`, `Name` and
`Message` cells. -/
structure Row where
  phone : List Char
  name : List Char
  message : List Char
deriving DecidableEq

structure Contact where
  name : List Char
  phone : List Char
  message : List Char
deriving DecidableEq

/-- The acceptance test of `load_contacts_from_csv`:
`phone.isdigit() and len(phone) >= 10` on the cleaned phone. -/
def row_accepted (row : Row) : Bool :=
  let phone := clean_phone row.phone
  pyIsDigitStr phone && decide (10 ≤ phone.length)

def contact_of_row (row : Row) : Contact :=
  { name := pyStrip row.name, phone := clean_phone row.phone, message := pyStrip row.message }

/-- The row loop: accepted rows are appended, others are skipped with a
warning. -/
def load_rows : List Row → List Contact
  | [] => []
  | row :: rest =>
    if row_accepted row then contact_of_row row :: load_rows rest else load_rows rest

/-- Model of `load_contacts_from_csv`: the `try` wraps opening and reading the file;
on any such failure the error is logged and re-raised (`raise`), otherwise
the validated rows are returned. -/
def load_contacts_from_csv (file : Except Unit (List Row)) : Except Unit (List Contact) :=
  match file with
  | .error e => .error e
  | .ok rows => .ok (load_rows rows)

/-- Claim C4's acceptance predicate, written from its words: after removing
every `+` and every space character from the raw phone value, the remaining
string is all-digit and has length at least 10. -/
def acceptsSpecC4 (raw : List Char) : Bool :=
  let p := (raw.filter (fun c => c ≠ '+')).filter (fun c => c ≠ ' ')
  p.all Char.isDigit && decide (10 ≤ p.length)

/-- The amended acceptance predicate: first strip leading/trailing whitespace
(as `str.strip()` does), then remove every `+` and space; the remainder must
be all-digit with length at least 10. -/
def acceptsSpecC4Amended (raw : List Char) : Bool :=
  let p := clean_phone raw
  p.all Char.isDigit && decide (10 ≤ p.length)

/-! ### Model of `send_whatsapp_message`

The browser is a list of open window handles (in creation order, as
`driver.window_handles`) plus the focused handle; `nextId` generates fresh
handles.  Every Selenium call inside the per-attempt `try` block can raise; an
`AttemptEnv` records, per attempt, which of them succeed.  Switching to a
handle that is among the open handles is modelled as always succeeding, and a
`window.open` script failure is modelled as opening no tab.  The deep-link URL
is represented by the target phone and the rendered message carried on the
`openTab` event (percent-encoding of the message is not modelled). -/

structure Browser where
  handles : List Nat
  current : Nat
  nextId : Nat
deriving DecidableEq

/-- Which fallible operations of one attempt succeed, and the values drawn by
`random.uniform` for the jitter (1-3 s) and the inter-message delay (3-5 s). -/
structure AttemptEnv where
  openOk : Bool
  waitOk : Bool
  enterOk : Bool
  buttonOk : Bool
  closeOk : Bool
  cleanCloseOk : Bool
  jitter : Nat
  delayVal : Nat
deriving DecidableEq

inductive Ev where
  | openTab (h : Nat) (phone msg : List Char)
  | switchTo (h : Nat)
  | waitInput
  | sleepJitter (n : Nat)
  | submitEnter
  | submitButton
  | logSuccess
  | beepOk
  | sleepSettle (n : Nat)
  | closeTab (h : Nat)
  | sleepRate (n : Nat)
  | logAttemptFail (attempt : Nat)
  | sleepBackoff (n : Nat)
  | logFail
  | beepBad
deriving DecidableEq

inductive AttemptOutcome where
  | ok (b : Browser) (evs : List Ev)
  | exn (b : Browser) (evs : List Ev)

def outcome_is_ok : AttemptOutcome → Bool
  | .ok _ _ => true
  | .exn _ _ => false

def outcome_state : AttemptOutcome → Browser
  | .ok b _ => b
  | .exn b _ => b

def outcome_events : AttemptOutcome → List Ev
  | .ok _ evs => evs
  | .exn _ evs => evs

/-- The body of the per-attempt `try` block: open the deep link in a new tab,
switch to it, wait for the input box, jittered pause, submit via ENTER with a
button-click fallback, log and beep, settle 2 s, close the tab, switch back to
the main window, and (non-reply only) apply the randomized rate-limit delay.
`exn` carries the browser state at the point the exception was raised. -/
def attempt_body (e : AttemptEnv) (mainWin : Nat) (phone msg : List Char)
    (is_reply : Bool) (b : Browser) : AttemptOutcome :=
  if e.openOk = false then .exn b []
  else
    let tab := b.nextId
    let b2 : Browser := ⟨b.handles ++ [tab], tab, b.nextId + 1⟩
    let evs0 := [Ev.openTab tab phone msg, Ev.switchTo tab]
    if e.waitOk = false then .exn b2 evs0
    else
      let evs1 := evs0 ++ [Ev.waitInput, Ev.sleepJitter e.jitter]
      if e.enterOk || e.buttonOk then
        let evs2 := evs1 ++ (if e.enterOk then [Ev.submitEnter] else [Ev.submitButton])
          ++ [Ev.logSuccess, Ev.beepOk, Ev.sleepSettle 2]
        if e.closeOk = false then .exn b2 evs2
        else
          let b3 : Browser := ⟨b2.handles.erase tab, tab, b2.nextId⟩
          let evs3 := evs2 ++ [Ev.closeTab tab]
          if mainWin ∈ b3.handles then
            .ok ⟨b3.handles, mainWin, b3.nextId⟩
              (evs3 ++ [Ev.switchTo mainWin]
                ++ (if is_reply then [] else [Ev.sleepRate e.delayVal]))
          else .exn b3 evs3
      else .exn b2 evs1

/-- The `except` handler: log the attempt failure, then best-effort cleanup in
an inner `try` whose own exceptions are swallowed (`pass`): if more than one
window is open, close the current one; then switch back to the main window.
Finally `time.sleep(5)`. -/
def attempt_cleanup (e : AttemptEnv) (mainWin : Nat) (attempt : Nat) (b : Browser) :
    Browser × List Ev :=
  let evs0 := [Ev.logAttemptFail attempt]
  let step :=
    if 1 < b.handles.length then
      if e.cleanCloseOk = false then (b, evs0)
      else
        let b2 : Browser := ⟨b.handles.erase b.current, b.current, b.nextId⟩
        if mainWin ∈ b2.handles then
          (⟨b2.handles, mainWin, b2.nextId⟩, evs0 ++ [Ev.closeTab b.current, Ev.switchTo mainWin])
        else (b2, evs0 ++ [Ev.closeTab b.current])
    else
      if mainWin ∈ b.handles then (⟨b.handles, mainWin, b.nextId⟩, evs0 ++ [Ev.switchTo mainWin])
      else (b, evs0)
  (step.1, step.2 ++ [Ev.sleepBackoff 5])

structure SendResult where
  ok : Bool
  attemptsUsed : Nat
  browser : Browser
  trace : List Ev
deriving DecidableEq

/-- The loop `for attempt in range(attemptNo, attemptNo + k): try ... except ...`. -/
def attempt_loop (envs : Nat → AttemptEnv) (mainWin : Nat) (phone msg : List Char)
    (is_reply : Bool) : Nat → Nat → Browser → SendResult
  | 0, _, b => ⟨false, 0, b, []⟩
  | k + 1, attemptNo, b =>
    match attempt_body (envs attemptNo) mainWin phone msg is_reply b with
    | .ok b2 evs => ⟨true, 1, b2, evs⟩
    | .exn b2 evs =>
      let cl := attempt_cleanup (envs attemptNo) mainWin attemptNo b2
      let r := attempt_loop envs mainWin phone msg is_reply k (attemptNo + 1) cl.1
      ⟨r.ok, r.attemptsUsed + 1, r.browser, evs ++ cl.2 ++ r.trace⟩

/-- Model of `send_whatsapp_message(driver, name, phone, raw_message, retry_limit,
is_reply)`: render the message unless replying, record the anchor window,
run `range(1, retry_limit + 1)` attempts, and on exhaustion log the failure,
beep, and return `False`. -/
def send_whatsapp_message (envs : Nat → AttemptEnv) (nm ph raw_message : List Char)
    (retry_limit : Int) (is_reply : Bool) (dt tm : List Char) (b : Browser) : SendResult :=
  let message := if is_reply then raw_message
    else render_message_template raw_message nm ph dt tm
  let mainWin := b.current
  let r := attempt_loop envs mainWin ph message is_reply retry_limit.toNat 1 b
  if r.ok then r
  else ⟨false, r.attemptsUsed, r.browser, r.trace ++ [Ev.logFail, Ev.beepBad]⟩

/-- An attempt in which deep-link open, wait, submit (`ENTER` or the button
fallback) and the post-submit tab close all succeed; such an attempt returns
`True` (the switch back to the anchor then succeeds whenever the anchor is
still open). -/
def full_success (e : AttemptEnv) : Bool :=
  e.openOk && e.waitOk && (e.enterOk || e.buttonOk) && e.closeOk

/-- First attempt number in `[a, a + k)` whose environment is a full success. -/
def first_full (envs : Nat → AttemptEnv) : Nat → Nat → Option Nat
  | 0, _ => none
  | k + 1, a => if full_success (envs a) then some a else first_full envs k (a + 1)

/-- Some step of the deep-link/wait/submit protocol raises on this attempt. -/
def step_failure (e : AttemptEnv) : Bool :=
  !e.openOk || !e.waitOk || (!e.enterOk && !e.buttonOk)

/-- The browser has exactly the anchor window open and focused, and the
handle generator is ahead of the anchor handle. -/
def anchored (b : Browser) (mainWin : Nat) : Prop :=
  b.handles = [mainWin] ∧ b.current = mainWin ∧ mainWin < b.nextId

/-! ### Model of `configure_chrome_options`

Selenium's `Options.add_argument` appends to a list, while
`add_experimental_option(name, value)` is a dict assignment
(`self._experimental_options[name] = value`): a second call with the same
name replaces the first value in place. -/

inductive ExpVal where
  | strList (xs : List String)
  | boolVal (b : Bool)
deriving DecidableEq

structure ChromeOptions where
  arguments : List String
  experimentalOptions : List (String × ExpVal)
deriving DecidableEq

def add_argument (o : ChromeOptions) (a : String) : ChromeOptions :=
  { o with arguments := o.arguments ++ [a] }

def add_experimental_option (o : ChromeOptions) (k : String) (v : ExpVal) : ChromeOptions :=
  if o.experimentalOptions.any (fun p => p.1 == k) then
    { o with experimentalOptions :=
        o.experimentalOptions.map (fun p => if p.1 == k then (k, v) else p) }
  else { o with experimentalOptions := o.experimentalOptions ++ [(k, v)] }

/-- Model of `configure_chrome_options()`; `sessionDir` stands for the
`SESSION_DIR = os.path.join(os.getcwd(), "whatsapp_session")` value. -/
def configure_chrome_options (sessionDir : String) : ChromeOptions :=
  let o : ChromeOptions := ⟨[], []⟩
  let o := add_argument o ("--user-data-dir=" ++ sessionDir)
  let o := add_argument o "--profile-directory=Default"
  let o := add_argument o "--disable-blink-features=AutomationControlled"
  let o := add_experimental_option o "excludeSwitches" (.strList ["enable-automation"])
  let o := add_experimental_option o "useAutomationExtension" (.boolVal false)
  let o := add_argument o "--disable-gpu"
  let o := add_argument o "--no-sandbox"
  let o := add_argument o "--disable-dev-shm-usage"
  let o := add_argument o "--log-level=3"
  let o := add_argument o "--disable-logging"
  let o := add_argument o "--disable-crash-reporter"
  let o := add_argument o "--disable-breakpad"
  let o := add_argument o "--disable-component-update"
  let o := add_argument o "--disable-background-networking"
  let o := add_argument o "--disable-default-apps"
  let o := add_argument o "--disable-features=TranslateUI"
  let o := add_argument o "--no-first-run"
  let o := add_argument o "--no-service-autorun"
  let o := add_argument o "--metrics-recording-only"
  let o := add_experimental_option o "excludeSwitches" (.strList ["enable-logging"])
  o

/-! ### Model of `main_bulk_send`

The environment records the outcome of each fallible external interaction:
the connectivity probe, launching the driver, `driver.get`, the two login
waits, reading the CSV file, the per-contact/per-attempt Selenium
environments, and whether (and before which contact) a `KeyboardInterrupt`
arrives at the batch-loop boundary.  `exit(1)` raises `SystemExit`, which is
not a subclass of `Exception`, so it passes the `except Exception` clause but
still runs the `finally`; an uncaught exception terminates the process with a
non-zero status (`raised`). -/

def RETRY_LIMIT : Int := 2

structure MainEnv where
  netOk : Bool
  initOk : Bool
  getOk : Bool
  loginOk1 : Bool
  loginOk2 : Bool
  csv : Except Unit (List Row)
  sendEnvs : Nat → Nat → AttemptEnv
  interruptAt : Option Nat
  dt : List Char
  tmOfDay : List Char

/-- The single window of the freshly initialized driver. -/
def initial_browser : Browser := ⟨[0], 0, 1⟩

inductive MainOutcome where
  | exitZero
  | exitOne
  | raised
deriving DecidableEq

structure MainResult where
  outcome : MainOutcome
  quits : Nat
  summary : Option (Nat × Nat)
deriving DecidableEq

/-- The batch loop over the contacts: returns the success count, whether a
`KeyboardInterrupt` stopped the iteration, and the final browser state.
Each send uses the defaults `retry_limit=RETRY_LIMIT`, `is_reply=False`. -/
def run_batch (env : MainEnv) : List Contact → Nat → Browser → Nat × Bool × Browser
  | [], _, b => (0, false, b)
  | c :: cs, i, b =>
    if env.interruptAt = some i then (0, true, b)
    else
      let r := send_whatsapp_message (env.sendEnvs i) c.name c.phone c.message
        RETRY_LIMIT false env.dt env.tmOfDay b
      let rest := run_batch env cs (i + 1) r.browser
      ((if r.ok then 1 else 0) + rest.1, rest.2.1, rest.2.2)

/-- The `try` body of `main_bulk_send` (after the driver exists): outcome,
number of `driver.quit()` calls made inside the body, and the final
`succeeded/total` summary if one is reported. -/
def main_body (env : MainEnv) : MainOutcome × Nat × Option (Nat × Nat) :=
  if env.getOk = false then (.raised, 0, none)
  else if !env.loginOk1 && !env.loginOk2 then (.exitOne, 1, none)
  else
    match env.csv with
    | .error _ => (.raised, 0, none)
    | .ok rows =>
      let contacts := load_rows rows
      if contacts.isEmpty then (.exitZero, 0, none)
      else
        let batch := run_batch env contacts 0 initial_browser
        if batch.2.1 then (.exitZero, 0, none)
        else (.exitZero, 0, some (batch.1, contacts.length))

/-- Model of `main_bulk_send()`: connectivity gate, driver launch, then the `try`
body with `finally: driver.quit()` adding one quit on every path through
the body. -/
def main_bulk_send (env : MainEnv) : MainResult :=
  if env.netOk = false then ⟨.exitOne, 0, none⟩
  else if env.initOk = false then ⟨.raised, 0, none⟩
  else
    let body := main_body env
    ⟨body.1, body.2.1 + 1, body.2.2⟩

/-- The process exits with a non-zero status: `exit(1)` or an uncaught
exception (Python prints a traceback and exits 1). -/
def nonzero_exit : MainOutcome → Bool
  | .exitZero => false
  | .exitOne => true
  | .raised => true

def login_passed (env : MainEnv) : Bool := env.loginOk1 || env.loginOk2

def csv_is_error : Except Unit (List Row) → Bool
  | .error _ => true
  | .ok _ => false

/-- Authentication failure after the credential handoff (reached only when
connectivity, driver launch and navigation succeeded). -/
def auth_failed (env : MainEnv) : Bool :=
  env.netOk && env.initOk && env.getOk && !env.loginOk1 && !env.loginOk2

/-- An unhandled error escapes the workflow: driver launch fails, navigation
fails, or reading the contacts file fails (re-raised by the loader and again
by the `except Exception` clause). -/
def unhandled_error (env : MainEnv) : Bool :=
  env.netOk && (!env.initOk || !env.getOk || (login_passed env && csv_is_error env.csv))

/-! ### Predicates for the amended template claim -/

def no_dollar (s : List Char) : Bool := s.all (fun c => c ≠ '$')

/-- A valid `Template` identifier: `[_a-zA-Z][_a-zA-Z0-9]*`. -/
def valid_ident : List Char → Bool
  | [] => false
  | c :: r => identStart c && r.all identCont

/-- Templates in which every `$` introduces a braced placeholder
`${ident}` with a valid identifier (no `$$` escapes, no bare `$name`
forms, no invalid `$` sequences). -/
inductive BracedOnly : List Char → Prop where
  | nil : BracedOnly []
  | plain (c : Char) (r : List Char) : c ≠ '$' → BracedOnly r → BracedOnly (c :: r)
  | braced (key r2 : List Char) : valid_ident key = true → BracedOnly r2 →
      BracedOnly ('$' :: '{' :: (key ++ '}' :: r2))

/-! ### Concrete fixtures used by witnesses and counterexamples -/

/-- Every browser operation of the attempt succeeds. -/
def envAllOk : AttemptEnv := ⟨true, true, true, true, true, true, 1, 3⟩

/-- The 30-second wait for the message input box times out; cleanup works. -/
def envWaitFail : AttemptEnv := ⟨true, false, true, true, true, true, 1, 3⟩

/-- Submit succeeds but the post-submit `driver.close()` raises. -/
def envCloseFail : AttemptEnv := ⟨true, true, true, true, false, true, 1, 3⟩

/-- The wait times out and the cleanup `driver.close()` itself raises, so the
swallowed cleanup never switches back to the anchor. -/
def envCleanupFail : AttemptEnv := ⟨true, false, true, true, true, false, 1, 3⟩

/-- Every step of every attempt raises. -/
def envAllFail : AttemptEnv := ⟨false, false, false, false, false, false, 1, 3⟩

/-- Attempt 1 fails at the wait; attempt 2 fully succeeds. -/
def envsSecondTry : Nat → AttemptEnv := fun i => if i = 1 then envWaitFail else envAllOk

/-- A run in which everything up to the batch works, but the contacts file
cannot be read. -/
def mainEnvCsvErr : MainEnv :=
  { netOk := true, initOk := true, getOk := true, loginOk1 := true, loginOk2 := true,
    csv := .error (), sendEnvs := fun _ _ => envAllOk, interruptAt := none,
    dt := "2025-01-01".toList, tmOfDay := "12:00".toList }

/-- A run in which both login probes fail: `prompt_qr_scan` quits and calls
`exit(1)`. -/
def mainEnvAuthFail : MainEnv :=
  { netOk := true, initOk := true, getOk := true, loginOk1 := false, loginOk2 := false,
    csv := .ok [], sendEnvs := fun _ _ => envAllOk, interruptAt := none,
    dt := "2025-01-01".toList, tmOfDay := "12:00".toList }

/-- A normal run with one valid contact whose sends all fail. -/
def mainEnvPartial : MainEnv :=
  { netOk := true, initOk := true, getOk := true, loginOk1 := true, loginOk2 := true,
    csv := .ok [⟨"+1 555 123 4567".toList, "Ana".toList, "hi".toList⟩],
    sendEnvs := fun _ _ => envWaitFail, interruptAt := none,
    dt := "2025-01-01".toList, tmOfDay := "12:00".toList }

/-! ### Lemmas about the template scanner -/

lemma takeCont_append : ∀ l : List Char, (takeCont l).1 ++ (takeCont l).2 = l := by
  intro l
  induction l with
  | nil => rfl
  | cons c r ih =>
    simp only [takeCont]
    by_cases h : identCont c = true
    · simp [h, ih]
    · simp [h]

lemma takeIdent_append : ∀ l : List Char, (takeIdent l).1 ++ (takeIdent l).2 = l := by
  intro l
  cases l with
  | nil => rfl
  | cons c r =>
    simp only [takeIdent]
    by_cases h : identStart c = true
    · simpa [h] using takeCont_append r
    · simp [h]

lemma takeCont_all : ∀ l : List Char, ∀ c ∈ (takeCont l).1, identCont c = true := by
  intro l
  induction l with
  | nil => intro c hc; simp [takeCont] at hc
  | cons a r ih =>
    intro c hc
    simp only [takeCont] at hc
    by_cases h : identCont a = true
    · simp [h] at hc
      rcases hc with hc | hc
      · exact hc ▸ h
      · exact ih c hc
    · simp [h] at hc

lemma takeCont_of_all : ∀ (p : List Char) (c : Char) (u : List Char),
    (∀ x ∈ p, identCont x = true) → identCont c = false →
    takeCont (p ++ c :: u) = (p, c :: u) := by
  intro p
  induction p with
  | nil =>
    intro c u _ hc
    simp [takeCont, hc]
  | cons a p ih =>
    intro c u hall hc
    have ha : identCont a = true := hall a (by simp)
    have hrec := ih c u (fun x hx => hall x (by simp [hx])) hc
    simp [takeCont, ha, hrec]

lemma takeIdent_of_valid {p : List Char} {c : Char} (u : List Char)
    (hp : valid_ident p = true) (hc : identCont c = false) :
    takeIdent (p ++ c :: u) = (p, c :: u) := by
  cases p with
  | nil => simp [valid_ident] at hp
  | cons a p =>
    simp only [valid_ident, Bool.and_eq_true] at hp
    simp only [List.cons_append, takeIdent, hp.1, if_pos]
    rw [takeCont_of_all p c u (fun x hx => by
      have := hp.2
      rw [List.all_eq_true] at this
      exact this x hx) hc]

lemma takeIdent_valid : ∀ (l : List Char) (k : Char) (key r2 : List Char),
    takeIdent l = (k :: key, r2) → valid_ident (k :: key) = true := by
  intro l k key r2 h
  cases l with
  | nil => simp [takeIdent] at h
  | cons c r =>
    simp only [takeIdent] at h
    by_cases hs : identStart c = true
    · simp only [hs, if_pos] at h
      have h1 : c = k ∧ (takeCont r).1 = key := by
        have := congrArg Prod.fst h
        simp at this
        exact ⟨this.1, this.2⟩
      simp only [valid_ident, Bool.and_eq_true]
      constructor
      · rw [← h1.1]; exact hs
      · rw [List.all_eq_true]
        intro x hx
        exact takeCont_all r x (by rw [h1.2]; exact hx)
    · simp [hs] at h

/-! Branch equations for `substFuel` with one unit of fuel peeled off. -/

lemma substFuel_plain (nm ph dt tm : List Char) (n : Nat) {c : Char} (rest : List Char)
    (hc : c ≠ '$') :
    substFuel nm ph dt tm (n + 1) (c :: rest) = c :: substFuel nm ph dt tm n rest := by
  simp only [substFuel, if_neg hc]

lemma substFuel_escape (nm ph dt tm : List Char) (n : Nat) (r : List Char) :
    substFuel nm ph dt tm (n + 1) ('$' :: '$' :: r) = '$' :: substFuel nm ph dt tm n r := rfl

lemma substFuel_braced_some (nm ph dt tm : List Char) (n : Nat) {r : List Char} {k : Char}
    {key r2 v : List Char} (hp : takeIdent r = (k :: key, '}' :: r2))
    (hv : lookupVar nm ph dt tm (k :: key) = some v) :
    substFuel nm ph dt tm (n + 1) ('$' :: '{' :: r) = v ++ substFuel nm ph dt tm n r2 := by
  simp only [substFuel, hp, hv]
  simp

lemma substFuel_braced_none (nm ph dt tm : List Char) (n : Nat) {r : List Char} {k : Char}
    {key r2 : List Char} (hp : takeIdent r = (k :: key, '}' :: r2))
    (hv : lookupVar nm ph dt tm (k :: key) = none) :
    substFuel nm ph dt tm (n + 1) ('$' :: '{' :: r) =
      '$' :: '{' :: ((k :: key) ++ '}' :: substFuel nm ph dt tm n r2) := by
  simp only [substFuel, hp, hv]
  simp

lemma substFuel_braced_noident (nm ph dt tm : List Char) (n : Nat) {r q : List Char}
    (hp : takeIdent r = ([], q)) :
    substFuel nm ph dt tm (n + 1) ('$' :: '{' :: r) =
      '$' :: substFuel nm ph dt tm n ('{' :: r) := by
  simp only [substFuel, hp]
  simp

lemma substFuel_braced_noclose (nm ph dt tm : List Char) (n : Nat) {r : List Char} {k : Char}
    {key : List Char} (hp : takeIdent r = (k :: key, [])) :
    substFuel nm ph dt tm (n + 1) ('$' :: '{' :: r) =
      '$' :: substFuel nm ph dt tm n ('{' :: r) := by
  simp only [substFuel, hp]
  simp

lemma substFuel_braced_badclose (nm ph dt tm : List Char) (n : Nat) {r : List Char} {k cb : Char}
    {key r2 : List Char} (hp : takeIdent r = (k :: key, cb :: r2)) (hb : cb ≠ '}') :
    substFuel nm ph dt tm (n + 1) ('$' :: '{' :: r) =
      '$' :: substFuel nm ph dt tm n ('{' :: r) := by
  simp only [substFuel, hp, if_neg hb]
  simp

lemma substFuel_named_some (nm ph dt tm : List Char) (n : Nat) {c2 : Char} {r : List Char}
    (h2 : c2 ≠ '$') (h3 : c2 ≠ '{') (h4 : identStart c2 = true) {key r2 v : List Char}
    (hq : takeCont r = (key, r2)) (hv : lookupVar nm ph dt tm (c2 :: key) = some v) :
    substFuel nm ph dt tm (n + 1) ('$' :: c2 :: r) = v ++ substFuel nm ph dt tm n r2 := by
  simp only [substFuel, if_neg h2, if_neg h3, h4, hq, hv]
  simp

lemma substFuel_named_none (nm ph dt tm : List Char) (n : Nat) {c2 : Char} {r : List Char}
    (h2 : c2 ≠ '$') (h3 : c2 ≠ '{') (h4 : identStart c2 = true) {key r2 : List Char}
    (hq : takeCont r = (key, r2)) (hv : lookupVar nm ph dt tm (c2 :: key) = none) :
    substFuel nm ph dt tm (n + 1) ('$' :: c2 :: r) =
      ('$' :: c2 :: key) ++ substFuel nm ph dt tm n r2 := by
  simp only [substFuel, if_neg h2, if_neg h3, h4, hq, hv]
  simp

lemma substFuel_invalid (nm ph dt tm : List Char) (n : Nat) {c2 : Char} (r : List Char)
    (h2 : c2 ≠ '$') (h3 : c2 ≠ '{') (h4 : identStart c2 = false) :
    substFuel nm ph dt tm (n + 1) ('$' :: c2 :: r) =
      '$' :: substFuel nm ph dt tm n (c2 :: r) := by
  simp only [substFuel, if_neg h2, if_neg h3, h4]
  simp

/-- Extra fuel beyond the length of the input is irrelevant. -/
lemma substFuel_succ (nm ph dt tm : List Char) :
    ∀ (n : Nat) (s : List Char), s.length ≤ n →
      substFuel nm ph dt tm (n + 1) s = substFuel nm ph dt tm n s := by
  intro n
  induction n with
  | zero =>
    intro s h
    have hs : s = [] := List.length_eq_zero.mp (Nat.le_zero.mp h)
    subst hs
    rfl
  | succ n ih =>
    intro s h
    rcases s with _ | ⟨c, rest⟩
    · rfl
    · have hlen : rest.length ≤ n := by
        simp only [List.length_cons] at h
        omega
      by_cases hc : c = '$'
      · subst hc
        rcases rest with _ | ⟨c2, r⟩
        · rfl
        · have hrlen : r.length ≤ n := by
            simp only [List.length_cons] at hlen
            omega
          by_cases h2 : c2 = '$'
          · subst h2
            rw [substFuel_escape nm ph dt tm (n + 1) r, substFuel_escape nm ph dt tm n r,
              ih r hrlen]
          · by_cases h3 : c2 = '{'
            · subst h3
              rcases hp : takeIdent r with ⟨key, rtail⟩
              have happ := takeIdent_append r
              rw [hp] at happ
              rcases key with _ | ⟨k, key⟩
              · rw [substFuel_braced_noident nm ph dt tm (n + 1) hp,
                  substFuel_braced_noident nm ph dt tm n hp, ih ('{' :: r) hlen]
              · rcases rtail with _ | ⟨cb, r2⟩
                · rw [substFuel_braced_noclose nm ph dt tm (n + 1) hp,
                    substFuel_braced_noclose nm ph dt tm n hp, ih ('{' :: r) hlen]
                · by_cases hb : cb = '}'
                  · subst hb
                    have hr2 : r2.length ≤ n := by
                      have := congrArg List.length happ
                      simp at this
                      omega
                    cases hv : lookupVar nm ph dt tm (k :: key) with
                    | some v =>
                      rw [substFuel_braced_some nm ph dt tm (n + 1) hp hv,
                        substFuel_braced_some nm ph dt tm n hp hv, ih r2 hr2]
                    | none =>
                      rw [substFuel_braced_none nm ph dt tm (n + 1) hp hv,
                        substFuel_braced_none nm ph dt tm n hp hv, ih r2 hr2]
                  · rw [substFuel_braced_badclose nm ph dt tm (n + 1) hp hb,
                      substFuel_braced_badclose nm ph dt tm n hp hb, ih ('{' :: r) hlen]
            · by_cases h4 : identStart c2 = true
              · rcases hq : takeCont r with ⟨key, r2⟩
                have happ := takeCont_append r
                rw [hq] at happ
                have hr2 : r2.length ≤ n := by
                  have := congrArg List.length happ
                  simp at this
                  omega
                cases hv : lookupVar nm ph dt tm (c2 :: key) with
                | some v =>
                  rw [substFuel_named_some nm ph dt tm (n + 1) h2 h3 h4 hq hv,
                    substFuel_named_some nm ph dt tm n h2 h3 h4 hq hv, ih r2 hr2]
                | none =>
                  rw [substFuel_named_none nm ph dt tm (n + 1) h2 h3 h4 hq hv,
                    substFuel_named_none nm ph dt tm n h2 h3 h4 hq hv, ih r2 hr2]
              · have h4f : identStart c2 = false := by
                  cases hx : identStart c2
                  · rfl
                  · exact absurd hx h4
                rw [substFuel_invalid nm ph dt tm (n + 1) r h2 h3 h4f,
                  substFuel_invalid nm ph dt tm n r h2 h3 h4f, ih (c2 :: r) hlen]
      · rw [substFuel_plain nm ph dt tm (n + 1) rest hc,
          substFuel_plain nm ph dt tm n rest hc, ih rest hlen]

/-- With fuel at least the length of the input, `substFuel` computes
`pySafeSubstitute`. -/
lemma substFuel_of_le (nm ph dt tm : List Char) :
    ∀ (n : Nat) (s : List Char), s.length ≤ n →
      substFuel nm ph dt tm n s = pySafeSubstitute nm ph dt tm s := by
  intro n
  induction n with
  | zero =>
    intro s h
    have hs : s = [] := List.length_eq_zero.mp (Nat.le_zero.mp h)
    subst hs
    rfl
  | succ n ih =>
    intro s h
    by_cases hs : s.length ≤ n
    · rw [substFuel_succ nm ph dt tm n s hs, ih s hs]
    · have hexact : s.length = n + 1 := by omega
      rw [pySafeSubstitute, hexact]

/-! Canonical equations for `pySafeSubstitute`. -/

lemma subst_plain (nm ph dt tm : List Char) {c : Char} (r : List Char) (hc : c ≠ '$') :
    pySafeSubstitute nm ph dt tm (c :: r) = c :: pySafeSubstitute nm ph dt tm r := by
  rw [pySafeSubstitute]
  simp only [List.length_cons]
  rw [substFuel_plain nm ph dt tm r.length r hc]
  rfl

lemma subst_braced_some (nm ph dt tm : List Char) {r : List Char} {k : Char}
    {key r2 v : List Char} (hp : takeIdent r = (k :: key, '}' :: r2))
    (hv : lookupVar nm ph dt tm (k :: key) = some v) :
    pySafeSubstitute nm ph dt tm ('$' :: '{' :: r) = v ++ pySafeSubstitute nm ph dt tm r2 := by
  have happ := takeIdent_append r
  rw [hp] at happ
  have hr2 : r2.length ≤ r.length + 1 := by
    have := congrArg List.length happ
    simp at this
    omega
  rw [pySafeSubstitute]
  simp only [List.length_cons]
  rw [substFuel_braced_some nm ph dt tm (r.length + 1) hp hv,
    substFuel_of_le nm ph dt tm (r.length + 1) r2 hr2]

lemma subst_braced_none (nm ph dt tm : List Char) {r : List Char} {k : Char}
    {key r2 : List Char} (hp : takeIdent r = (k :: key, '}' :: r2))
    (hv : lookupVar nm ph dt tm (k :: key) = none) :
    pySafeSubstitute nm ph dt tm ('$' :: '{' :: r) =
      '$' :: '{' :: ((k :: key) ++ '}' :: pySafeSubstitute nm ph dt tm r2) := by
  have happ := takeIdent_append r
  rw [hp] at happ
  have hr2 : r2.length ≤ r.length + 1 := by
    have := congrArg List.length happ
    simp at this
    omega
  rw [pySafeSubstitute]
  simp only [List.length_cons]
  rw [substFuel_braced_none nm ph dt tm (r.length + 1) hp hv,
    substFuel_of_le nm ph dt tm (r.length + 1) r2 hr2]

/-- A `$`-free prefix passes through the substitution unchanged. -/
lemma subst_append_nodollar (nm ph dt tm : List Char) :
    ∀ (s u : List Char), no_dollar s = true →
      pySafeSubstitute nm ph dt tm (s ++ u) = s ++ pySafeSubstitute nm ph dt tm u := by
  intro s
  induction s with
  | nil => intro u _; rfl
  | cons c s ih =>
    intro u hs
    simp only [no_dollar, List.all_cons, Bool.and_eq_true] at hs
    have hc : c ≠ '$' := by
      intro hcc
      subst hcc
      simp at hs
    rw [List.cons_append, subst_plain nm ph dt tm (s ++ u) hc, ih u (by
      simp only [no_dollar]
      exact hs.2)]
    rfl

lemma lookupVar_some_values {nm ph dt tm key v : List Char}
    (hv : lookupVar nm ph dt tm key = some v) : v = nm ∨ v = ph ∨ v = dt ∨ v = tm := by
  unfold lookupVar at hv
  split at hv
  · exact Or.inl (Option.some.inj hv).symm
  · split at hv
    · exact Or.inr (Or.inl (Option.some.inj hv).symm)
    · split at hv
      · exact Or.inr (Or.inr (Or.inl (Option.some.inj hv).symm))
      · split at hv
        · exact Or.inr (Or.inr (Or.inr (Option.some.inj hv).symm))
        · exact absurd hv (by simp)

/-- Idempotence of safe substitution on braced-only templates with
`$`-free substitution values. -/
lemma subst_idem_braced (nm ph dt tm : List Char) (hnm : no_dollar nm = true)
    (hph : no_dollar ph = true) (hdt : no_dollar dt = true) (htm : no_dollar tm = true) :
    ∀ t : List Char, BracedOnly t →
      pySafeSubstitute nm ph dt tm (pySafeSubstitute nm ph dt tm t) =
        pySafeSubstitute nm ph dt tm t := by
  intro t hb
  induction hb with
  | nil => rfl
  | plain c r hc _ ih =>
    rw [subst_plain nm ph dt tm r hc, subst_plain nm ph dt tm (pySafeSubstitute nm ph dt tm r) hc,
      ih]
  | braced key r2 hk _ ih =>
    rcases key with _ | ⟨k, key⟩
    · simp [valid_ident] at hk
    · have hclose : identCont '}' = false := by decide
      have hti : takeIdent ((k :: key) ++ '}' :: r2) = (k :: key, '}' :: r2) :=
        takeIdent_of_valid r2 hk hclose
      cases hv : lookupVar nm ph dt tm (k :: key) with
      | some v =>
        rw [subst_braced_some nm ph dt tm hti hv]
        have hvnd : no_dollar v = true := by
          rcases lookupVar_some_values hv with h | h | h | h <;> (subst h; assumption)
        rw [subst_append_nodollar nm ph dt tm v (pySafeSubstitute nm ph dt tm r2) hvnd, ih]
      | none =>
        rw [subst_braced_none nm ph dt tm hti hv]
        have hti2 : takeIdent ((k :: key) ++ '}' :: pySafeSubstitute nm ph dt tm r2) =
            (k :: key, '}' :: pySafeSubstitute nm ph dt tm r2) :=
          takeIdent_of_valid (pySafeSubstitute nm ph dt tm r2) hk hclose
        rw [subst_braced_none nm ph dt tm hti2 hv, ih]

/-! ### Lemmas about the dispatch controller -/

lemma attempt_body_full_eval (e : AttemptEnv) (mainWin : Nat) (phone msg : List Char)
    (is_reply : Bool) (b : Browser) (hfull : full_success e = true) (hb : anchored b mainWin) :
    outcome_is_ok (attempt_body e mainWin phone msg is_reply b) = true ∧
    outcome_state (attempt_body e mainWin phone msg is_reply b) =
      ⟨[mainWin], mainWin, b.nextId + 1⟩ := by
  obtain ⟨hh, hcur, hfresh⟩ := hb
  simp only [full_success, Bool.and_eq_true] at hfull
  obtain ⟨⟨⟨ho, hw⟩, hsub⟩, hcl⟩ := hfull
  have hne : mainWin ≠ b.nextId := Nat.ne_of_lt hfresh
  simp [attempt_body, ho, hw, hcl, hsub, hh, outcome_is_ok, outcome_state,
    List.erase_cons, hne]

lemma attempt_body_fail_eval (e : AttemptEnv) (mainWin : Nat) (phone msg : List Char)
    (is_reply : Bool) (b : Browser) (hfail : full_success e = false) (hb : anchored b mainWin) :
    outcome_is_ok (attempt_body e mainWin phone msg is_reply b) = false ∧
    (outcome_state (attempt_body e mainWin phone msg is_reply b) = b ∨
      outcome_state (attempt_body e mainWin phone msg is_reply b) =
        ⟨[mainWin, b.nextId], b.nextId, b.nextId + 1⟩) := by
  obtain ⟨hh, hcur, hfresh⟩ := hb
  simp only [full_success] at hfail
  cases ho : e.openOk with
  | false => simp [attempt_body, ho, outcome_is_ok, outcome_state]
  | true =>
    cases hw : e.waitOk with
    | false => simp [attempt_body, ho, hw, hh, outcome_is_ok, outcome_state]
    | true =>
      cases hsub : e.enterOk || e.buttonOk with
      | false => simp [attempt_body, ho, hw, hsub, hh, outcome_is_ok, outcome_state]
      | true =>
        cases hcl : e.closeOk with
        | false => simp [attempt_body, ho, hw, hsub, hcl, hh, outcome_is_ok, outcome_state]
        | true => simp [ho, hw, hsub, hcl] at hfail

lemma cleanup_anchored_one (e : AttemptEnv) (mainWin attempt : Nat) (b : Browser)
    (hb : anchored b mainWin) :
    (attempt_cleanup e mainWin attempt b).1 = ⟨[mainWin], mainWin, b.nextId⟩ := by
  obtain ⟨hh, hcur, _⟩ := hb
  simp [attempt_cleanup, hh]

lemma cleanup_anchored_two (e : AttemptEnv) (mainWin attempt t nid : Nat)
    (hclean : e.cleanCloseOk = true) (ht : mainWin < t) :
    (attempt_cleanup e mainWin attempt ⟨[mainWin, t], t, nid⟩).1 = ⟨[mainWin], mainWin, nid⟩ := by
  have hne : mainWin ≠ t := Nat.ne_of_lt ht
  simp [attempt_cleanup, hclean, List.erase_cons, hne]

lemma attempt_loop_spec (envs : Nat → AttemptEnv) (mainWin : Nat) (phone msg : List Char)
    (is_reply : Bool) (hclean : ∀ i, (envs i).cleanCloseOk = true) :
    ∀ (k a : Nat) (b : Browser), anchored b mainWin →
      anchored (attempt_loop envs mainWin phone msg is_reply k a b).browser mainWin ∧
      (∀ i, first_full envs k a = some i →
        (attempt_loop envs mainWin phone msg is_reply k a b).ok = true ∧
        (attempt_loop envs mainWin phone msg is_reply k a b).attemptsUsed + a = i + 1) ∧
      (first_full envs k a = none →
        (attempt_loop envs mainWin phone msg is_reply k a b).ok = false ∧
        (attempt_loop envs mainWin phone msg is_reply k a b).attemptsUsed = k) := by
  intro k
  induction k with
  | zero =>
    intro a b hb
    refine ⟨hb, ?_, ?_⟩
    · intro i hi
      simp [first_full] at hi
    · intro _
      exact ⟨rfl, rfl⟩
  | succ k ih =>
    intro a b hb
    cases hfs : full_success (envs a) with
    | true =>
      obtain ⟨hok, hst⟩ := attempt_body_full_eval (envs a) mainWin phone msg is_reply b
        (by exact hfs) hb
      cases hbody : attempt_body (envs a) mainWin phone msg is_reply b with
      | ok b2 evs =>
        rw [hbody] at hst
        simp only [outcome_state] at hst
        have hff : first_full envs (k + 1) a = some a := by simp [first_full, hfs]
        refine ⟨?_, ?_, ?_⟩
        · simp only [attempt_loop, hbody, hst]
          exact ⟨rfl, rfl, Nat.lt_succ_of_lt hb.2.2⟩
        · intro i hi
          rw [hff] at hi
          have hia : i = a := (Option.some.inj hi).symm
          subst hia
          refine ⟨by simp [attempt_loop, hbody], ?_⟩
          simp only [attempt_loop, hbody]
          omega
        · intro hnone
          rw [hff] at hnone
          exact absurd hnone (by simp)
      | exn b2 evs =>
        rw [hbody] at hok
        simp [outcome_is_ok] at hok
    | false =>
      obtain ⟨hok, hst⟩ := attempt_body_fail_eval (envs a) mainWin phone msg is_reply b
        (by exact hfs) hb
      cases hbody : attempt_body (envs a) mainWin phone msg is_reply b with
      | ok b2 evs =>
        rw [hbody] at hok
        simp [outcome_is_ok] at hok
      | exn b2 evs =>
        rw [hbody] at hst
        simp only [outcome_state] at hst
        have hcl : anchored (attempt_cleanup (envs a) mainWin a b2).1 mainWin := by
          rcases hst with hst | hst
          · subst hst
            rw [cleanup_anchored_one (envs a) mainWin a b2 hb]
            exact ⟨rfl, rfl, hb.2.2⟩
          · subst hst
            rw [cleanup_anchored_two (envs a) mainWin a b.nextId (b.nextId + 1)
              (hclean a) hb.2.2]
            exact ⟨rfl, rfl, Nat.lt_succ_of_lt hb.2.2⟩
        obtain ⟨ihanch, ihsome, ihnone⟩ := ih (a + 1) _ hcl
        have hff : first_full envs (k + 1) a = first_full envs k (a + 1) := by
          simp [first_full, hfs]
        refine ⟨?_, ?_, ?_⟩
        · simp only [attempt_loop, hbody]
          exact ihanch
        · intro i hi
          rw [hff] at hi
          obtain ⟨hrok, hrused⟩ := ihsome i hi
          constructor
          · simp only [attempt_loop, hbody]
            exact hrok
          · simp only [attempt_loop, hbody]
            omega
        · intro hnone
          rw [hff] at hnone
          obtain ⟨hrok, hrused⟩ := ihnone hnone
          constructor
          · simp only [attempt_loop, hbody]
            exact hrok
          · simp only [attempt_loop, hbody]
            omega

lemma first_full_bounds (envs : Nat → AttemptEnv) :
    ∀ (k a i : Nat), first_full envs k a = some i → a ≤ i ∧ i < a + k := by
  intro k
  induction k with
  | zero => intro a i hi; simp [first_full] at hi
  | succ k ih =>
    intro a i hi
    simp only [first_full] at hi
    by_cases hfs : full_success (envs a) = true
    · rw [if_pos hfs] at hi
      have : a = i := Option.some.inj hi
      omega
    · rw [if_neg hfs] at hi
      have := ih (a + 1) i hi
      omega

lemma if_send_trace (r : SendResult) (t2 : List Ev) (x : Ev) :
    x ∈ (if r.ok then r
      else (⟨false, r.attemptsUsed, r.browser, r.trace ++ t2⟩ : SendResult)).trace →
    x ∈ r.trace ∨ x ∈ t2 := by
  cases h : r.ok
  · rw [if_neg (by simp [h])]
    intro hx
    exact List.mem_append.mp hx
  · rw [if_pos (by simp [h])]
    exact fun hx => Or.inl hx

lemma if_send_components (r : SendResult) (t2 : List Ev) :
    (if r.ok then r else (⟨false, r.attemptsUsed, r.browser, r.trace ++ t2⟩ : SendResult)).ok
        = r.ok ∧
      (if r.ok then r
        else (⟨false, r.attemptsUsed, r.browser, r.trace ++ t2⟩ : SendResult)).attemptsUsed
        = r.attemptsUsed ∧
      (if r.ok then r
        else (⟨false, r.attemptsUsed, r.browser, r.trace ++ t2⟩ : SendResult)).browser
        = r.browser := by
  cases h : r.ok <;> simp [h]

/-- The function `send_whatsapp_message` returns the loop result's `ok`, attempt count and
browser state unchanged (only the trace is extended on the failure path). -/
lemma send_eq_loop (envs : Nat → AttemptEnv) (nm ph raw_message : List Char)
    (retry_limit : Int) (is_reply : Bool) (dt tm : List Char) (b : Browser) :
    (send_whatsapp_message envs nm ph raw_message retry_limit is_reply dt tm b).ok =
      (attempt_loop envs b.current ph
        (if is_reply then raw_message else render_message_template raw_message nm ph dt tm)
        is_reply retry_limit.toNat 1 b).ok ∧
    (send_whatsapp_message envs nm ph raw_message retry_limit is_reply dt tm b).attemptsUsed =
      (attempt_loop envs b.current ph
        (if is_reply then raw_message else render_message_template raw_message nm ph dt tm)
        is_reply retry_limit.toNat 1 b).attemptsUsed ∧
    (send_whatsapp_message envs nm ph raw_message retry_limit is_reply dt tm b).browser =
      (attempt_loop envs b.current ph
        (if is_reply then raw_message else render_message_template raw_message nm ph dt tm)
        is_reply retry_limit.toNat 1 b).browser := by
  simp only [send_whatsapp_message]
  exact if_send_components _ _

lemma attempt_body_no_backoff (e : AttemptEnv) (mainWin : Nat) (phone msg : List Char)
    (is_reply : Bool) (b : Browser) (d : Nat) :
    Ev.sleepBackoff d ∉ outcome_events (attempt_body e mainWin phone msg is_reply b) := by
  unfold attempt_body
  repeat' split
  all_goals (by_cases hmem : mainWin ∈ (b.handles ++ [b.nextId]).erase b.nextId <;>
    simp [outcome_events, hmem])

lemma cleanup_backoff_five (e : AttemptEnv) (mainWin attempt : Nat) (b : Browser) (d : Nat) :
    Ev.sleepBackoff d ∈ (attempt_cleanup e mainWin attempt b).2 → d = 5 := by
  unfold attempt_cleanup
  repeat' split
  all_goals (by_cases hmem : mainWin ∈ b.handles.erase b.current <;> simp [hmem])

lemma attempt_loop_backoff (envs : Nat → AttemptEnv) (mainWin : Nat) (phone msg : List Char)
    (is_reply : Bool) :
    ∀ (k a : Nat) (b : Browser) (d : Nat),
      Ev.sleepBackoff d ∈ (attempt_loop envs mainWin phone msg is_reply k a b).trace →
      d = 5 := by
  intro k
  induction k with
  | zero => intro a b d h; simp [attempt_loop] at h
  | succ k ih =>
    intro a b d h
    cases hbody : attempt_body (envs a) mainWin phone msg is_reply b with
    | ok b2 evs =>
      simp only [attempt_loop, hbody] at h
      have := attempt_body_no_backoff (envs a) mainWin phone msg is_reply b d
      rw [hbody] at this
      simp [outcome_events] at this
      exact absurd h this
    | exn b2 evs =>
      simp only [attempt_loop, hbody, List.mem_append] at h
      rcases h with (h | h) | h
      · have := attempt_body_no_backoff (envs a) mainWin phone msg is_reply b d
        rw [hbody] at this
        simp [outcome_events] at this
        exact absurd h this
      · exact cleanup_backoff_five (envs a) mainWin a b2 d h
      · exact ih (a + 1) _ d h

lemma attempt_body_step_fail (e : AttemptEnv) (mainWin : Nat) (phone msg : List Char)
    (is_reply : Bool) (b : Browser) (hsf : step_failure e = true) :
    outcome_is_ok (attempt_body e mainWin phone msg is_reply b) = false := by
  simp only [step_failure, Bool.or_eq_true, Bool.and_eq_true, Bool.not_eq_true'] at hsf
  rcases hsf with (ho | hw) | ⟨he, hbt⟩
  · simp [attempt_body, ho, outcome_is_ok]
  · cases ho : e.openOk <;> simp [attempt_body, ho, hw, outcome_is_ok]
  · cases ho : e.openOk
    · simp [attempt_body, ho, outcome_is_ok]
    · cases hw : e.waitOk
      · simp [attempt_body, ho, hw, outcome_is_ok]
      · simp [attempt_body, ho, hw, he, hbt, outcome_is_ok]

lemma attempt_loop_step_fail (envs : Nat → AttemptEnv) (mainWin : Nat) (phone msg : List Char)
    (is_reply : Bool) (hsf : ∀ i, step_failure (envs i) = true) :
    ∀ (k a : Nat) (b : Browser),
      (attempt_loop envs mainWin phone msg is_reply k a b).ok = false ∧
      (attempt_loop envs mainWin phone msg is_reply k a b).attemptsUsed = k := by
  intro k
  induction k with
  | zero => intro a b; exact ⟨rfl, rfl⟩
  | succ k ih =>
    intro a b
    cases hbody : attempt_body (envs a) mainWin phone msg is_reply b with
    | ok b2 evs =>
      have := attempt_body_step_fail (envs a) mainWin phone msg is_reply b (hsf a)
      rw [hbody] at this
      simp [outcome_is_ok] at this
    | exn b2 evs =>
      obtain ⟨h1, h2⟩ := ih (a + 1)
        (attempt_cleanup (envs a) mainWin a b2).1
      constructor
      · simp only [attempt_loop, hbody]
        exact h1
      · simp only [attempt_loop, hbody]
        omega

/-! ### Lemmas about the main workflow -/

lemma main_body_ok_eval (env : MainEnv) (hget : env.getOk = true)
    (hl : (!env.loginOk1 && !env.loginOk2) = false) (rows : List Row)
    (hc : env.csv = .ok rows) :
    (main_body env).1 = .exitZero ∧ (main_body env).2.1 = 0 := by
  simp only [main_body, hget, hl, hc]
  constructor <;> (repeat' split) <;> simp_all

lemma main_bulk_send_components (env : MainEnv) (hnet : env.netOk = true)
    (hinit : env.initOk = true) :
    (main_bulk_send env).outcome = (main_body env).1 ∧
    (main_bulk_send env).quits = (main_body env).2.1 + 1 := by
  simp [main_bulk_send, hnet, hinit]

/-! ### Claim theorems -/

/-- C1 (corrected): for `retry_limit = N >= 1`, starting from a browser with
only the anchor window open and assuming the cleanup close never raises,
`send_whatsapp_message` performs at most `N` attempt cycles; it returns `true`
exactly when some attempt among `1..N` is a full success (deep-link open,
wait, submit, and the post-submit tab close all succeed), stopping at the
first such attempt with no further attempts; it returns `false` only after
all `N` attempts have failed.  The original claim's "returns true on the
first attempt whose submit step succeeds" is refuted by
`send_retry_submit_success_cex`: an exception after a successful submit also
fails the attempt. -/
theorem send_retry_limit_amended (envs : Nat → AttemptEnv) (nm ph raw_message : List Char)
    (is_reply : Bool) (dt tm : List Char) (b : Browser) (N : Int) (hN : 1 ≤ N)
    (hb : b.handles = [b.current]) (hfresh : b.current < b.nextId)
    (hclean : ∀ i, (envs i).cleanCloseOk = true) :
    (send_whatsapp_message envs nm ph raw_message N is_reply dt tm b).attemptsUsed ≤ N.toNat ∧
    (∀ i, first_full envs N.toNat 1 = some i →
      (send_whatsapp_message envs nm ph raw_message N is_reply dt tm b).ok = true ∧
      (send_whatsapp_message envs nm ph raw_message N is_reply dt tm b).attemptsUsed = i) ∧
    (first_full envs N.toNat 1 = none →
      (send_whatsapp_message envs nm ph raw_message N is_reply dt tm b).ok = false ∧
      (send_whatsapp_message envs nm ph raw_message N is_reply dt tm b).attemptsUsed
        = N.toNat) := by
  obtain ⟨hok, hused, _⟩ := send_eq_loop envs nm ph raw_message N is_reply dt tm b
  obtain ⟨_, hsome, hnone⟩ := attempt_loop_spec envs b.current ph
    (if is_reply then raw_message else render_message_template raw_message nm ph dt tm)
    is_reply hclean N.toNat 1 b ⟨hb, rfl, hfresh⟩
  refine ⟨?_, ?_, ?_⟩
  · cases hff : first_full envs N.toNat 1 with
    | some i =>
      obtain ⟨_, h2⟩ := hsome i hff
      obtain ⟨hb1, hb2⟩ := first_full_bounds envs N.toNat 1 i hff
      rw [hused]
      omega
    | none =>
      obtain ⟨_, h2⟩ := hnone hff
      rw [hused]
      omega
  · intro i hff
    obtain ⟨h1, h2⟩ := hsome i hff
    refine ⟨by rw [hok]; exact h1, by rw [hused]; omega⟩
  · intro hff
    obtain ⟨h1, h2⟩ := hnone hff
    exact ⟨by rw [hok]; exact h1, by rw [hused]; exact h2⟩

/-- C1 witness: with two attempts whose first fails at the wait and whose
second fully succeeds, the send returns `true` after exactly two attempts. -/
theorem send_retry_limit_amended_witness :
    (send_whatsapp_message envsSecondTry "Ana".toList "15551234567".toList "hi".toList 2
      false "2025-01-01".toList "12:00".toList initial_browser).ok = true ∧
    (send_whatsapp_message envsSecondTry "Ana".toList "15551234567".toList "hi".toList 2
      false "2025-01-01".toList "12:00".toList initial_browser).attemptsUsed = 2 := by
  have h := send_retry_limit_amended envsSecondTry "Ana".toList "15551234567".toList
    "hi".toList false "2025-01-01".toList "12:00".toList initial_browser 2 (by decide) rfl
    (by decide) (fun i => by by_cases hi : i = 1 <;> simp [envsSecondTry, hi, envWaitFail, envAllOk])
  exact h.2.1 2 (by decide)

/-- C1 counterexample: with `retry_limit = 1` and an attempt in which the
submit step succeeds (`ENTER` is delivered) but the post-submit
`driver.close()` raises, `send_whatsapp_message` returns `false`, refuting
"it returns true on the first attempt whose submit step succeeds". -/
theorem send_retry_submit_success_cex :
    Ev.submitEnter ∈ (send_whatsapp_message (fun _ => envCloseFail) "Ana".toList
      "15551234567".toList "hi".toList 1 false "2025-01-01".toList "12:00".toList
      initial_browser).trace ∧
    (send_whatsapp_message (fun _ => envCloseFail) "Ana".toList "15551234567".toList
      "hi".toList 1 false "2025-01-01".toList "12:00".toList initial_browser).ok = false := by
  decide

/-- C2 (corrected): starting from a browser with only the anchor window open,
and provided the best-effort cleanup's `driver.close()` never raises, every
`send_whatsapp_message` invocation (success or failure) returns with the
anchor window focused and as the only open window.  The unconditional claim
is refuted by `send_focus_anchor_cex`: when the cleanup close itself raises,
the swallowed inner `try` never switches back, and focus remains on the
contact-specific tab. -/
theorem send_focus_anchor_amended (envs : Nat → AttemptEnv) (nm ph raw_message : List Char)
    (N : Int) (is_reply : Bool) (dt tm : List Char) (b : Browser)
    (hb : b.handles = [b.current]) (hfresh : b.current < b.nextId)
    (hclean : ∀ i, (envs i).cleanCloseOk = true) :
    (send_whatsapp_message envs nm ph raw_message N is_reply dt tm b).browser.current
      = b.current ∧
    (send_whatsapp_message envs nm ph raw_message N is_reply dt tm b).browser.handles
      = [b.current] := by
  obtain ⟨_, _, hbrowser⟩ := send_eq_loop envs nm ph raw_message N is_reply dt tm b
  obtain ⟨hanch, _, _⟩ := attempt_loop_spec envs b.current ph
    (if is_reply then raw_message else render_message_template raw_message nm ph dt tm)
    is_reply hclean N.toNat 1 b ⟨hb, rfl, hfresh⟩
  rw [hbrowser]
  exact ⟨hanch.2.1, hanch.1⟩

/-- C2 witness: two failing attempts with working cleanup end focused on the
anchor window `0`. -/
theorem send_focus_anchor_amended_witness :
    (send_whatsapp_message (fun _ => envWaitFail) "Ana".toList "15551234567".toList
      "hi".toList 2 false "2025-01-01".toList "12:00".toList initial_browser).browser.current
      = initial_browser.current ∧
    (send_whatsapp_message (fun _ => envWaitFail) "Ana".toList "15551234567".toList
      "hi".toList 2 false "2025-01-01".toList "12:00".toList initial_browser).browser.handles
      = [initial_browser.current] :=
  send_focus_anchor_amended (fun _ => envWaitFail) "Ana".toList "15551234567".toList
    "hi".toList 2 false "2025-01-01".toList "12:00".toList initial_browser rfl (by decide)
    (fun _ => rfl)

/-- C2 counterexample: when the attempt fails and the cleanup close raises,
the function returns with the contact tab (handle 1) focused, not the anchor
(handle 0). -/
theorem send_focus_anchor_cex :
    (send_whatsapp_message (fun _ => envCleanupFail) "Ana".toList "15551234567".toList
      "hi".toList 1 false "2025-01-01".toList "12:00".toList initial_browser).browser.current
      = 1 ∧
    initial_browser.current = 0 := by
  decide

/-- C3 (confirmed): every backoff pause recorded between failed attempts is
exactly 5 seconds (fixed, not growing), and whenever every attempt raises in
its deep-link/wait/submit steps — regardless of whether the cleanup's own
operations also raise, since those exceptions are swallowed —
`send_whatsapp_message` converts the exceptions into the boolean result
`false` after consuming all `retry_limit` attempts, instead of propagating
them to the caller. -/
theorem send_error_containment (envs : Nat → AttemptEnv) (nm ph raw_message : List Char)
    (N : Int) (is_reply : Bool) (dt tm : List Char) (b : Browser) :
    (∀ d, Ev.sleepBackoff d ∈
      (send_whatsapp_message envs nm ph raw_message N is_reply dt tm b).trace → d = 5) ∧
    ((∀ i, step_failure (envs i) = true) →
      (send_whatsapp_message envs nm ph raw_message N is_reply dt tm b).ok = false ∧
      (send_whatsapp_message envs nm ph raw_message N is_reply dt tm b).attemptsUsed
        = N.toNat) := by
  constructor
  · intro d hd
    simp only [send_whatsapp_message] at hd
    rcases if_send_trace _ _ _ hd with hd | hd
    · exact attempt_loop_backoff envs b.current ph _ is_reply N.toNat 1 b d hd
    · simp at hd
  · intro hsf
    obtain ⟨hok, hused, _⟩ := send_eq_loop envs nm ph raw_message N is_reply dt tm b
    obtain ⟨h1, h2⟩ := attempt_loop_step_fail envs b.current ph
      (if is_reply then raw_message else render_message_template raw_message nm ph dt tm)
      is_reply hsf N.toNat 1 b
    exact ⟨by rw [hok]; exact h1, by rw [hused]; exact h2⟩

/-- C3 witness: with every step of every attempt raising (including cleanup),
the 5-second backoff appears in the trace and the result is the boolean
`false`. -/
theorem send_error_containment_witness :
    (5 = 5) ∧
    (send_whatsapp_message (fun _ => envAllFail) "Ana".toList "15551234567".toList
      "hi".toList 2 false "2025-01-01".toList "12:00".toList initial_browser).ok = false := by
  have h := send_error_containment (fun _ => envAllFail) "Ana".toList "15551234567".toList
    "hi".toList 2 false "2025-01-01".toList "12:00".toList initial_browser
  exact ⟨h.1 5 (by decide), (h.2 (fun _ => rfl)).1⟩

/-- C9 (confirmed): for every `retry_limit <= 0`, `range(1, retry_limit + 1)`
is empty, so `send_whatsapp_message` performs zero attempt cycles, leaves the
browser state untouched (it only reads the current window handle), and takes
the exhausted-failure path: its result is exactly `false` with the failure
log and failure beep as the whole trace. -/
theorem send_nonpositive_retry_noop (envs : Nat → AttemptEnv) (nm ph raw_message : List Char)
    (N : Int) (hN : N ≤ 0) (is_reply : Bool) (dt tm : List Char) (b : Browser) :
    send_whatsapp_message envs nm ph raw_message N is_reply dt tm b =
      ⟨false, 0, b, [Ev.logFail, Ev.beepBad]⟩ := by
  have h0 : N.toNat = 0 := Int.toNat_of_nonpos hN
  simp [send_whatsapp_message, h0, attempt_loop]

/-- C9 witness: at `retry_limit = -1` with an all-succeeding environment, no
attempt happens and the browser is untouched. -/
theorem send_nonpositive_retry_noop_witness :
    send_whatsapp_message (fun _ => envAllOk) "Ana".toList "15551234567".toList "hi".toList
      (-1) false "2025-01-01".toList "12:00".toList initial_browser =
      ⟨false, 0, initial_browser, [Ev.logFail, Ev.beepBad]⟩ :=
  send_nonpositive_retry_noop (fun _ => envAllOk) "Ana".toList "15551234567".toList
    "hi".toList (-1) (by decide) false "2025-01-01".toList "12:00".toList initial_browser

/-- C4 (corrected): a row joins the contact list iff its raw phone value,
after first stripping leading/trailing whitespace (as `str.strip()` does) and
then removing every `+` and every space, is all-digit with length at least
10; `"+1 555 123 4567"` is accepted and normalized to `"15551234567"`, while
`"555-123"` is rejected (the row is skipped, never aborting the run).  The
original claim omits the initial whitespace strip and is refuted by
`load_contacts_accept_cex` on a tab-padded phone value. -/
theorem load_contacts_accept_amended :
    (∀ (row : Row) (rest : List Row),
      load_rows (row :: rest) =
        if acceptsSpecC4Amended row.phone then contact_of_row row :: load_rows rest
        else load_rows rest) ∧
    clean_phone "+1 555 123 4567".toList = "15551234567".toList ∧
    acceptsSpecC4Amended "+1 555 123 4567".toList = true ∧
    acceptsSpecC4Amended "555-123".toList = false := by
  refine ⟨?_, by decide, by decide, by decide⟩
  intro row rest
  have hacc : row_accepted row = acceptsSpecC4Amended row.phone := by
    unfold row_accepted acceptsSpecC4Amended pyIsDigitStr
    rcases hcp : clean_phone row.phone with _ | ⟨c, l⟩
    · simp
    · simp
  rw [load_rows, hacc]

/-- C4 counterexample: the code accepts the tab-padded phone value
`"\t15551234567"` (its `strip()` removes the tab), although after removing
only `+` and spaces the remainder still contains the tab and is not
all-digit, so the claim as stated rejects it. -/
theorem load_contacts_accept_cex :
    row_accepted ⟨"\t15551234567".toList, "Ana".toList, "hi".toList⟩ = true ∧
    load_rows [⟨"\t15551234567".toList, "Ana".toList, "hi".toList⟩] =
      [⟨"Ana".toList, "15551234567".toList, "hi".toList⟩] ∧
    acceptsSpecC4 "\t15551234567".toList = false := by
  decide

/-- C5 (corrected): rendering is total by construction and placeholders not
in the substitution map are left verbatim; re-rendering the result with the
same substitutions yields the same string for templates in which every `$`
begins a braced placeholder `${ident}`, provided the substituted values
contain no `$`.  Unrestricted idempotence is refuted by
`render_template_idem_cex` (a `$$` escape, and a bare `$`-run completed into
a known placeholder by a substituted value). -/
theorem render_template_amended (nm ph dt tm : List Char) (hnm : no_dollar nm = true)
    (hph : no_dollar ph = true) (hdt : no_dollar dt = true) (htm : no_dollar tm = true) :
    (∀ (key u : List Char), valid_ident key = true → lookupVar nm ph dt tm key = none →
      render_message_template ('$' :: '{' :: (key ++ '}' :: u)) nm ph dt tm =
        '$' :: '{' :: (key ++ '}' :: render_message_template u nm ph dt tm)) ∧
    (∀ t : List Char, BracedOnly t →
      render_message_template (render_message_template t nm ph dt tm) nm ph dt tm =
        render_message_template t nm ph dt tm) := by
  constructor
  · intro key u hk hv
    rcases key with _ | ⟨k, key⟩
    · simp [valid_ident] at hk
    · have hti := @takeIdent_of_valid (k :: key) '}' u hk (by decide)
      exact subst_braced_none nm ph dt tm hti hv
  · exact subst_idem_braced nm ph dt tm hnm hph hdt htm

/-- C5 witness: the unknown placeholder `${deadline}` is kept verbatim, and a
braced-only template re-renders to itself. -/
theorem render_template_amended_witness :
    render_message_template ('$' :: '{' :: ("deadline".toList ++ '}' :: []))
        "Ana".toList "123".toList "2025".toList "12".toList =
      '$' :: '{' :: ("deadline".toList ++ '}' ::
        render_message_template [] "Ana".toList "123".toList "2025".toList "12".toList) ∧
    render_message_template
        (render_message_template "Hi ${name} ${foo}".toList
          "Ana".toList "123".toList "2025".toList "12".toList)
        "Ana".toList "123".toList "2025".toList "12".toList =
      render_message_template "Hi ${name} ${foo}".toList
        "Ana".toList "123".toList "2025".toList "12".toList := by
  have h := render_template_amended "Ana".toList "123".toList "2025".toList "12".toList
    (by decide) (by decide) (by decide) (by decide)
  have hbraced : BracedOnly "Hi ${name} ${foo}".toList := by
    show BracedOnly ('H' :: 'i' :: ' ' :: '$' :: '{' :: ("name".toList ++ '}' ::
      (' ' :: '$' :: '{' :: ("foo".toList ++ '}' :: []))))
    exact .plain 'H' _ (by decide) (.plain 'i' _ (by decide) (.plain ' ' _ (by decide)
      (.braced "name".toList _ (by decide) (.plain ' ' _ (by decide)
        (.braced "foo".toList [] (by decide) .nil)))))
  exact ⟨h.1 "deadline".toList [] (by decide) (by decide), h.2 _ hbraced⟩

/-- C5 counterexample: rendering is not idempotent in general.  `"$$name"`
renders to `"$name"`, which re-renders to `"Ana"`; and `"$p${name}"` with
`name = "hone"` renders to `"$phone"`, which re-renders to the phone value. -/
theorem render_template_idem_cex :
    (render_message_template
        (render_message_template "$$name".toList "Ana".toList "123".toList "D".toList
          "T".toList) "Ana".toList "123".toList "D".toList "T".toList ≠
      render_message_template "$$name".toList "Ana".toList "123".toList "D".toList
        "T".toList) ∧
    (render_message_template
        (render_message_template "$p${name}".toList "hone".toList "123".toList "D".toList
          "T".toList) "hone".toList "123".toList "D".toList "T".toList ≠
      render_message_template "$p${name}".toList "hone".toList "123".toList "D".toList
        "T".toList) := by
  decide

/-- C10 (confirmed): when the contacts file cannot be opened or read, the
loader logs and re-raises the error rather than returning an empty list, and
the re-raised error escapes `main_bulk_send` (after teardown), making the
file-level failure process-fatal; a malformed individual row, by contrast,
can only be skipped — a row list never produces an error. -/
theorem csv_error_propagation :
    (∀ e, load_contacts_from_csv (Except.error e) = Except.error e) ∧
    (∀ rows, load_contacts_from_csv (Except.ok rows) = Except.ok (load_rows rows)) ∧
    (∀ env : MainEnv, env.netOk = true → env.initOk = true → env.getOk = true →
      env.loginOk1 = true → csv_is_error env.csv = true →
      (main_bulk_send env).outcome = MainOutcome.raised ∧ (main_bulk_send env).quits = 1) := by
  refine ⟨fun e => rfl, fun rows => rfl, ?_⟩
  intro env hnet hinit hget hl1 hcsv
  obtain ⟨ho, hq⟩ := main_bulk_send_components env hnet hinit
  rcases hc : env.csv with e | rows
  · constructor
    · rw [ho]
      simp [main_body, hget, hl1, hc]
    · rw [hq]
      simp [main_body, hget, hl1, hc]
  · rw [hc] at hcsv
    simp [csv_is_error] at hcsv

/-- C10 witness: a run that reaches the loader with an unreadable contacts
file ends with an escaped exception (non-zero process exit) and a single
teardown. -/
theorem csv_error_propagation_witness :
    (main_bulk_send mainEnvCsvErr).outcome = MainOutcome.raised ∧
    (main_bulk_send mainEnvCsvErr).quits = 1 :=
  csv_error_propagation.2.2 mainEnvCsvErr rfl rfl rfl rfl rfl

/-- C6 (corrected): the process exits non-zero exactly when (a) the
connectivity check fails, (b) authentication is still not achieved after the
credential-handoff re-probe, or (c) an unhandled error escapes the workflow
(driver launch failure, navigation failure, or a contacts-file read failure
re-raised by the loader); a run that completes the batch — even with every
per-contact send failing — exits zero.  The original "exactly (a) or (b)" is
refuted by `main_exit_codes_cex`: an unreadable contacts file also ends the
process with a non-zero status. -/
theorem main_exit_codes_amended :
    (∀ env : MainEnv, nonzero_exit (main_bulk_send env).outcome =
        (!env.netOk || auth_failed env || unhandled_error env)) ∧
    (∀ env : MainEnv, env.netOk = true → env.initOk = true → env.getOk = true →
      login_passed env = true → csv_is_error env.csv = false →
      (main_bulk_send env).outcome = MainOutcome.exitZero) := by
  constructor
  · intro env
    cases hnet : env.netOk
    · simp [main_bulk_send, hnet, nonzero_exit, auth_failed, unhandled_error]
    · cases hinit : env.initOk
      · simp [main_bulk_send, hnet, hinit, nonzero_exit, auth_failed, unhandled_error]
      · obtain ⟨ho, _⟩ := main_bulk_send_components env hnet hinit
        rw [ho]
        cases hget : env.getOk
        · simp [main_body, hget, nonzero_exit, auth_failed, unhandled_error, hnet, hinit]
        · cases hl1 : env.loginOk1
          · cases hl2 : env.loginOk2
            · simp [main_body, hget, hl1, hl2, nonzero_exit, auth_failed,
                unhandled_error, login_passed, hnet, hinit]
            · rcases hc : env.csv with e | rows
              · simp [main_body, hget, hl1, hl2, hc, nonzero_exit, auth_failed,
                  unhandled_error, login_passed, csv_is_error, hnet, hinit]
              · rw [(main_body_ok_eval env hget (by simp [hl2]) rows hc).1]
                simp [nonzero_exit, auth_failed, unhandled_error, login_passed,
                  csv_is_error, hnet, hinit, hget, hl1, hl2, hc]
          · rcases hc : env.csv with e | rows
            · simp [main_body, hget, hl1, hc, nonzero_exit, auth_failed,
                unhandled_error, login_passed, csv_is_error, hnet, hinit]
            · rw [(main_body_ok_eval env hget (by simp [hl1]) rows hc).1]
              simp [nonzero_exit, auth_failed, unhandled_error, login_passed,
                csv_is_error, hnet, hinit, hget, hl1, hc]
  · intro env hnet hinit hget hlp hcsv
    obtain ⟨ho, _⟩ := main_bulk_send_components env hnet hinit
    rcases hc : env.csv with e | rows
    · rw [hc] at hcsv
      simp [csv_is_error] at hcsv
    · have hl : (!env.loginOk1 && !env.loginOk2) = false := by
        simp only [login_passed, Bool.or_eq_true] at hlp
        rcases hlp with h | h <;> simp [h]
      rw [ho, (main_body_ok_eval env hget hl rows hc).1]

/-- C6 witness: a run whose single contact fails every send attempt still
exits zero. -/
theorem main_exit_codes_amended_witness :
    (main_bulk_send mainEnvPartial).outcome = MainOutcome.exitZero :=
  main_exit_codes_amended.2 mainEnvPartial rfl rfl rfl rfl rfl

/-- C6 counterexample: with connectivity and authentication both fine but an
unreadable contacts file, the process still exits non-zero, refuting
"non-zero exactly when (a) or (b)". -/
theorem main_exit_codes_cex :
    nonzero_exit (main_bulk_send mainEnvCsvErr).outcome = true ∧
    mainEnvCsvErr.netOk = true ∧
    auth_failed mainEnvCsvErr = false :=
  ⟨rfl, rfl, rfl⟩

/-- C7 (corrected): after the browser session is created, `driver.quit()` is
invoked exactly once on the normal-completion, interruption and
unhandled-error paths, but exactly twice on the authentication-failure path:
`prompt_qr_scan` quits and raises `SystemExit`, which skips the
`except Exception` clause yet still runs `finally: driver.quit()`.  The
original "exactly once, never twice" is refuted by `main_teardown_cex`. -/
theorem main_teardown_amended (env : MainEnv) (hnet : env.netOk = true)
    (hinit : env.initOk = true) :
    (main_bulk_send env).quits =
      if env.getOk && !env.loginOk1 && !env.loginOk2 then 2 else 1 := by
  obtain ⟨_, hq⟩ := main_bulk_send_components env hnet hinit
  rw [hq]
  cases hget : env.getOk
  · simp [main_body, hget]
  · cases hl1 : env.loginOk1
    · cases hl2 : env.loginOk2
      · simp [main_body, hget, hl1, hl2]
      · rcases hc : env.csv with e | rows
        · simp [main_body, hget, hl1, hl2, hc]
        · rw [(main_body_ok_eval env hget (by simp [hl2]) rows hc).2]
          simp [hget, hl1, hl2]
    · rcases hc : env.csv with e | rows
      · simp [main_body, hget, hl1, hc]
      · rw [(main_body_ok_eval env hget (by simp [hl1]) rows hc).2]
        simp [hget, hl1]

/-- C7 witness: on a normal completed run the driver is quit exactly once. -/
theorem main_teardown_amended_witness :
    (main_bulk_send mainEnvPartial).quits = 1 := by
  have h := main_teardown_amended mainEnvPartial rfl rfl
  exact h.trans rfl

/-- C7 counterexample: on the authentication-failure path the driver is quit
twice (once in `prompt_qr_scan`, once in the `finally` clause), refuting
"never twice". -/
theorem main_teardown_cex :
    (main_bulk_send mainEnvAuthFail).quits = 2 := rfl

/-- C8 (code bug): evaluating `configure_chrome_options` shows that the
second `add_experimental_option("excludeSwitches", ["enable-logging"])` —
a dict assignment — overwrites the first, so the final options exclude only
`enable-logging`: the anti-detection `enable-automation` exclusion the code's
own "Anti-bot evasion" block sets up is lost, contradicting the claim that
no configured option is overridden by another.  All `add_argument` flags and
the `useAutomationExtension` option do survive, as listed. -/
theorem chrome_options_excludeswitches_overwrite (sessionDir : String) :
    (configure_chrome_options sessionDir).experimentalOptions =
      [("excludeSwitches", ExpVal.strList ["enable-logging"]),
       ("useAutomationExtension", ExpVal.boolVal false)] ∧
    (configure_chrome_options sessionDir).arguments =
      ["--user-data-dir=" ++ sessionDir,
       "--profile-directory=Default",
       "--disable-blink-features=AutomationControlled",
       "--disable-gpu",
       "--no-sandbox",
       "--disable-dev-shm-usage",
       "--log-level=3",
       "--disable-logging",
       "--disable-crash-reporter",
       "--disable-breakpad",
       "--disable-component-update",
       "--disable-background-networking",
       "--disable-default-apps",
       "--disable-features=TranslateUI",
       "--no-first-run",
       "--no-service-autorun",
       "--metrics-recording-only"] := by
  constructor <;> simp [configure_chrome_options, add_argument, add_experimental_option]

end BulkSender
